import Mathlib

/-!
# Verification of the time-off scheduler's problem-formulation core

Shallow embedding of the holiday-planning notebook (period catalog
generation, cost and utility scoring, ILP constraint assembly, and
solution decoding) together with proofs of the specified properties.

Calendar dates are embedded as their proleptic-Gregorian ordinals
(`date.toordinal()` in Python's `datetime`, day 1 = 0001-01-01, a
Monday), so date arithmetic `d + timedelta(days=n)` becomes integer
addition and `date.isoweekday()` becomes `(d - 1) % 7 + 1`
(Monday = 1 .. Sunday = 7). Python `float` values (all small multiples
of 0.5 here, hence exactly representable) are embedded as rationals.
-/

/-- Calendar dates, embedded as proleptic-Gregorian ordinals. -/
abbrev CalDate := Int

/-- Cumulative day counts before each month in a non-leap year,
mirroring `datetime`'s `_DAYS_BEFORE_MONTH` table. -/
def DAYS_BEFORE_MONTH : List Nat :=
  [0, 31, 59, 90, 120, 151, 181, 212, 243, 273, 304, 334]

/-- Gregorian leap-year test, as in Python's `calendar.isleap`. -/
def isLeapYear (y : Nat) : Bool :=
  y % 4 == 0 && (y % 100 != 0 || y % 400 == 0)

/-- `date(y, m, d).toordinal()` for years ≥ 1, mirroring CPython's
`_ymd2ord`: days in all preceding years, plus days before the month
(with leap adjustment), plus the day of month. -/
def date_toordinal (y m d : Nat) : CalDate :=
  let py := y - 1
  let days_before_year := 365 * py + py / 4 - py / 100 + py / 400
  let days_before_month :=
    (DAYS_BEFORE_MONTH.getD (m - 1) 0) + (if 3 ≤ m ∧ isLeapYear y then 1 else 0)
  (days_before_year + days_before_month + d : Nat)

/-- Python's `date.isoweekday()`: Monday = 1 .. Sunday = 7. -/
def isoweekday (d : CalDate) : Int :=
  (d - 1) % 7 + 1

/-- Modelled from the spec: class `HolidayPeriod` lives in
`src/mdl/period.py`, which is not part of the provided sources. Per the
spec's data model it is "a contiguous range of calendar days,
represented by (start_date, duration_in_days), duration ≥ 1", with two
periods equal iff `start_date` and `duration` match. -/
structure HolidayPeriod where
  start_date : CalDate
  duration_in_days : Nat
deriving DecidableEq, Repr

/-- Modelled from the spec: `HolidayPeriod.duration()` accessor. -/
def HolidayPeriod.duration (p : HolidayPeriod) : Nat :=
  p.duration_in_days

/-- Modelled from the spec: `HolidayPeriod.all_days()` "produces the
ordered sequence of `duration` consecutive dates starting at
`start_date`". -/
def HolidayPeriod.all_days (p : HolidayPeriod) : List CalDate :=
  (List.range p.duration_in_days).map (fun (i : Nat) => p.start_date + (i : Int))

namespace LocalConfig

/-- `LocalConfig.PLANNING_PERIOD_START_DATE = date(2025, 1, 1)`. -/
def PLANNING_PERIOD_START_DATE : CalDate := date_toordinal 2025 1 1

/-- `LocalConfig.NUMBER_DAYS_IN_YEAR = 365`. -/
def NUMBER_DAYS_IN_YEAR : Nat := 365

/-- `LocalConfig.MAX_HOLIDAY_PERIOD_LENGTH = 30`. -/
def MAX_HOLIDAY_PERIOD_LENGTH : Nat := 30

/-- `LocalConfig.MIN_TIME_OFF_TO_GET_VALUE = 3`. -/
def MIN_TIME_OFF_TO_GET_VALUE : Nat := 3

/-- `LocalConfig.PERIOD_LENGTH_GAIN_START = 4`. -/
def PERIOD_LENGTH_GAIN_START : Nat := 4

/-- `LocalConfig.PERIOD_LENGTH_GAIN_CUTOFF = 20`. -/
def PERIOD_LENGTH_GAIN_CUTOFF : Nat := 20

/-- `LocalConfig.BASELINE_MARGINAL_VALUE = 1`. -/
def BASELINE_MARGINAL_VALUE : ℚ := 1

/-- `LocalConfig.BONUS_MARGINAL_VALUE = 0.5`. -/
def BONUS_MARGINAL_VALUE : ℚ := 0.5

/-- `LocalConfig.PREFERRED_WEEKDAYS_OFF = [1, 5]` (ISO weekdays:
Monday and Friday). -/
def PREFERRED_WEEKDAYS_OFF : List Int := [1, 5]

/-- `LocalConfig.PREFERRED_DATES_OFF = [date(2025, 6, 19)]`. -/
def PREFERRED_DATES_OFF : List CalDate := [date_toordinal 2025 6 19]

/-- `LocalConfig.HOLIDAY_BUDGET = 30`. -/
def HOLIDAY_BUDGET : Nat := 30

end LocalConfig

/-- `start_date = LocalConfig.PLANNING_PERIOD_START_DATE`. -/
def planning_start_date : CalDate := LocalConfig.PLANNING_PERIOD_START_DATE

/-- `end_date = start_date + timedelta(days=NUMBER_DAYS_IN_YEAR - 1)`. -/
def planning_end_date : CalDate :=
  planning_start_date + (LocalConfig.NUMBER_DAYS_IN_YEAR - 1 : Nat)

/-- `all_dates_in_period = [start_date + timedelta(days=i) for i in
range(NUMBER_DAYS_IN_YEAR)]`. -/
def all_dates_in_period : List CalDate :=
  (List.range LocalConfig.NUMBER_DAYS_IN_YEAR).map
    (fun (i : Nat) => planning_start_date + (i : Int))

/-- `is_weekend_day(day) = day.isoweekday() in [6, 7]`. -/
def is_weekend_day (day : CalDate) : Bool :=
  ([6, 7] : List Int).contains (isoweekday day)

/-- `generate_all_possible_holiday_periods(potential_start_dates,
planning_end_date)`: for each start, durations run over
`range(1, max_holiday_period_length + 1)` and the loop `break`s as
soon as `start_date + timedelta(days=duration) > planning_end_date`.
The break is a `takeWhile` since the bound is monotone in the duration.
The workshop notebook reads the maximum length from
`LocalConfig.MAX_HOLIDAY_PERIOD_LENGTH`; it is made an explicit first
argument here, matching the `PeriodFactory` signature the demo
notebook calls with `ModelConfig.MAX_HOLIDAY_PERIOD_LENGTH`. -/
def generate_all_possible_holiday_periods
    (max_holiday_period_length : Nat)
    (potential_start_dates : List CalDate)
    (planning_end_date : CalDate) : List HolidayPeriod :=
  potential_start_dates.flatMap (fun start_date =>
    ((List.range' 1 max_holiday_period_length).takeWhile
        (fun (duration : Nat) =>
          decide (start_date + (duration : Int) ≤ planning_end_date))).map
      (fun duration => HolidayPeriod.mk start_date duration))

/-- `holiday_periods = generate_all_possible_holiday_periods(
all_dates_in_period, end_date)`. -/
def holiday_periods : List HolidayPeriod :=
  generate_all_possible_holiday_periods
    LocalConfig.MAX_HOLIDAY_PERIOD_LENGTH all_dates_in_period planning_end_date

example : date_toordinal 2025 1 1 = 739252 := by decide
example : isoweekday (date_toordinal 2025 1 1) = 3 := by decide
example : isoweekday (date_toordinal 2025 6 19) = 4 := by decide
example :
    (generate_all_possible_holiday_periods 3 [1, 2, 3, 4, 5] 5).length = 9 := by
  decide

/-- The per-day value assigned by the loop body of
`generate_marginal_value_lookup`: the baseline, then `+= BONUS` and
`continue` when the ISO weekday is preferred, else `+= BONUS` when the
date itself is preferred. -/
def marginal_value_of_day (datestamp : CalDate) : ℚ :=
  if isoweekday datestamp ∈ LocalConfig.PREFERRED_WEEKDAYS_OFF then
    LocalConfig.BASELINE_MARGINAL_VALUE + LocalConfig.BONUS_MARGINAL_VALUE
  else if datestamp ∈ LocalConfig.PREFERRED_DATES_OFF then
    LocalConfig.BASELINE_MARGINAL_VALUE + LocalConfig.BONUS_MARGINAL_VALUE
  else
    LocalConfig.BASELINE_MARGINAL_VALUE

/-- `generate_marginal_value_lookup(all_dates_in_period)`: a dict with
one entry per horizon date, embedded as an association list in loop
order (horizon dates are pairwise distinct, so each key is written by
exactly one iteration). -/
def generate_marginal_value_lookup
    (all_dates_in_period : List CalDate) : List (CalDate × ℚ) :=
  all_dates_in_period.map (fun datestamp => (datestamp, marginal_value_of_day datestamp))

/-- `dict_marginal_value_of_day_off` as a total lookup function; the
notebook only ever queries it at horizon dates, where it agrees with
the built dict. -/
def dict_marginal_value_of_day_off : CalDate → ℚ :=
  marginal_value_of_day

/-- `calculate_value_for_period_duration(duration_in_days)`: 0 below
`PERIOD_LENGTH_GAIN_START`, the saturated value above
`PERIOD_LENGTH_GAIN_CUTOFF`, and a linear ramp in between (the local
`value = 1` is the unit gain). -/
def calculate_value_for_period_duration (duration_in_days : Nat) : ℚ :=
  let value : ℚ := 1
  let min_duration := LocalConfig.PERIOD_LENGTH_GAIN_START
  let max_duration := LocalConfig.PERIOD_LENGTH_GAIN_CUTOFF
  if duration_in_days < min_duration then 0
  else if duration_in_days > max_duration then
    ((max_duration : ℚ) - (min_duration : ℚ) + 1) * value
  else
    ((duration_in_days : ℚ) - (min_duration : ℚ) + 1) * value

/-- `calculate_value_of_period(period, marginal_value_lookup,
period_based_value_generator)`: returns 0 when the duration is below
`MIN_TIME_OFF_TO_GET_VALUE`; otherwise sums the marginal value of each
day of the period and adds the duration-based value. The dict argument
is embedded as a total function (the notebook queries it only at days
of in-horizon periods, all of which are dict keys). -/
def calculate_value_of_period (period : HolidayPeriod)
    (marginal_value_lookup : CalDate → ℚ)
    (period_based_value_generator : Nat → ℚ) : ℚ :=
  if period.duration < LocalConfig.MIN_TIME_OFF_TO_GET_VALUE then 0
  else
    (period.all_days.map marginal_value_lookup).sum
      + period_based_value_generator period.duration

/-- The per-day cost assigned by the loop body of
`generate_cost_lookup`: 0 for weekend days, 0 for the supplied
cost-free dates (public holidays), and 1 otherwise. -/
def cost_of_day (cost_free_dates : List CalDate) (datestamp : CalDate) : Nat :=
  if is_weekend_day datestamp then 0
  else if datestamp ∈ cost_free_dates then 0
  else 1

/-- `generate_cost_lookup(all_dates_in_period, cost_free_dates)`: a
dict with one entry per horizon date, embedded as an association list
in loop order. -/
def generate_cost_lookup (all_dates_in_period : List CalDate)
    (cost_free_dates : List CalDate) : List (CalDate × Nat) :=
  all_dates_in_period.map (fun datestamp => (datestamp, cost_of_day cost_free_dates datestamp))

/-- `calculate_cost_of_period(period, daily_cost_lookup)`: sums the
daily cost over `period.all_days()`; the dict argument is embedded as
a total function. -/
def calculate_cost_of_period (period : HolidayPeriod)
    (daily_cost_lookup : CalDate → Nat) : Nat :=
  (period.all_days.map daily_cost_lookup).sum

/-!
## ILP model assembly

Each catalog period gets its own fresh binary PuLP variable
(`dict_variables[period]`), so a linear expression over those
variables is faithfully represented by its list of
(period, coefficient) terms. Every constraint the notebook builds has
sense `LpConstraintLE`, so a constraint is a term list and a
right-hand side.
-/

/-- A `pulp.LpConstraint` with sense `LpConstraintLE`: terms
`coefficient * decision_variable_of_period` and the right-hand side. -/
structure IlpConstraint where
  terms : List (HolidayPeriod × ℚ)
  rhs : ℚ
deriving DecidableEq, Repr

/-- The budget-constraint cell: `lhs_elements` collects
`decision_variable * cost` for each catalog period in order, and the
constraint is `lpSum(lhs_elements) ≤ LocalConfig.HOLIDAY_BUDGET`. -/
def budget_constraint (catalog : List HolidayPeriod)
    (daily_cost_lookup : CalDate → Nat) : IlpConstraint :=
  { terms := catalog.map (fun period =>
      (period, (calculate_cost_of_period period daily_cost_lookup : ℚ))) ,
    rhs := (LocalConfig.HOLIDAY_BUDGET : ℚ) }

/-- One step of building `dict_date_variable_coverage`: the inner loop
adds `period`'s decision variable to the bucket of every date in
`period.all_days()`. -/
def add_period_coverage (coverage : CalDate → List HolidayPeriod)
    (period : HolidayPeriod) : CalDate → List HolidayPeriod :=
  fun datestamp =>
    if datestamp ∈ period.all_days then coverage datestamp ++ [period]
    else coverage datestamp

/-- `dict_date_variable_coverage`: starting from empty buckets, fold
the inner-loop update over the catalog in order. (The notebook keys
the dict by the horizon dates; generated periods only cover horizon
dates, and only horizon dates are ever queried.) -/
def dict_date_variable_coverage (catalog : List HolidayPeriod) :
    CalDate → List HolidayPeriod :=
  catalog.foldl add_period_coverage (fun _ => [])

/-- `dict_date_constraints`: for every horizon date, the constraint
`lpSum(variables covering that date) ≤ 1`, keyed by the date. -/
def dict_date_constraints (catalog : List HolidayPeriod)
    (all_dates_in_period : List CalDate) : List (CalDate × IlpConstraint) :=
  all_dates_in_period.map (fun datestamp =>
    (datestamp,
      { terms := (dict_date_variable_coverage catalog datestamp).map
          (fun period => (period, (1 : ℚ))) ,
        rhs := 1 }))

/-- The sequence of `model.addConstraint` calls: the budget constraint
first, then one day-coverage constraint per horizon date. -/
def model_constraints (catalog : List HolidayPeriod)
    (all_dates_in_period : List CalDate)
    (daily_cost_lookup : CalDate → Nat) : List IlpConstraint :=
  budget_constraint catalog daily_cost_lookup
    :: (dict_date_constraints catalog all_dates_in_period).map Prod.snd

/-- `get_selected_holiday_periods(dict_variables)`: iterate the
period/variable pairs; `continue` when the solved value is `None`,
select the period when the value exceeds 0.99. Solved variable values
are embedded as `Option ℚ`. -/
def get_selected_holiday_periods :
    List (HolidayPeriod × Option ℚ) → List HolidayPeriod
  | [] => []
  | (_, none) :: rest => get_selected_holiday_periods rest
  | (period, some v) :: rest =>
      if v > 0.99 then period :: get_selected_holiday_periods rest
      else get_selected_holiday_periods rest

/-!
## Helper lemmas
-/

/-- A list of rationals that are all at least 1 sums to at least its
length. -/
lemma length_le_sum_of_one_le (l : List ℚ) (h : ∀ x ∈ l, (1 : ℚ) ≤ x) :
    (l.length : ℚ) ≤ l.sum := by
  induction l with
  | nil => simp
  | cons a t ih =>
      have ha := h a (by simp)
      have ht := ih (fun x hx => h x (by simp [hx]))
      simp only [List.length_cons, List.sum_cons]
      push_cast
      linarith

/-- Every day of the horizon gets marginal value at least the
baseline. -/
lemma one_le_marginal_value_of_day (d : CalDate) :
    (1 : ℚ) ≤ marginal_value_of_day d := by
  unfold marginal_value_of_day
  unfold LocalConfig.BASELINE_MARGINAL_VALUE LocalConfig.BONUS_MARGINAL_VALUE
  split_ifs <;> norm_num

/-- The duration-dependent value is never negative. -/
lemma calculate_value_for_period_duration_nonneg (d : Nat) :
    0 ≤ calculate_value_for_period_duration d := by
  unfold calculate_value_for_period_duration
  unfold LocalConfig.PERIOD_LENGTH_GAIN_START LocalConfig.PERIOD_LENGTH_GAIN_CUTOFF
  simp only []
  split_ifs with h1 h2
  · norm_num
  · norm_num
  · have h4 : (4 : ℚ) ≤ (d : ℚ) := by exact_mod_cast Nat.not_lt.mp h1
    push_cast
    linarith

/-- Unfolding the bucket-filling fold: the coverage buckets collect,
in catalog order, exactly the periods whose day range includes the
queried date. -/
lemma foldl_add_period_coverage (catalog : List HolidayPeriod)
    (coverage : CalDate → List HolidayPeriod) (d : CalDate) :
    catalog.foldl add_period_coverage coverage d
      = coverage d ++ catalog.filter (fun p => decide (d ∈ p.all_days)) := by
  induction catalog generalizing coverage with
  | nil => simp
  | cons p rest ih =>
      simp only [List.foldl_cons, List.filter_cons]
      rw [ih]
      unfold add_period_coverage
      by_cases hd : d ∈ p.all_days <;> simp [hd]

/-- `dict_date_variable_coverage` equals a filter of the catalog by
day membership. -/
lemma dict_date_variable_coverage_eq_filter (catalog : List HolidayPeriod)
    (d : CalDate) :
    dict_date_variable_coverage catalog d
      = catalog.filter (fun p => decide (d ∈ p.all_days)) := by
  unfold dict_date_variable_coverage
  rw [foldl_add_period_coverage]
  simp

/-!
## Claim theorems
-/

/-- Claim C1: the catalog is claimed to contain `HolidayPeriod(start,
duration)` iff `start + duration - 1 ≤ horizon_end`, with closed-form
count `Σ min(M, H - s)` (12 for H = 5, M = 3). The generator's break
condition `start + timedelta(days=duration) > planning_end_date` is
off by one: on the 5-day horizon [1..5] with max duration 3 it
produces only 9 periods and omits the period (start = 5, duration = 1)
even though its end date 5 does not exceed the horizon end 5. -/
theorem generator_omits_period_ending_on_horizon_end :
    (generate_all_possible_holiday_periods 3 [1, 2, 3, 4, 5] 5).length = 9
    ∧ HolidayPeriod.mk 5 1 ∉ generate_all_possible_holiday_periods 3 [1, 2, 3, 4, 5] 5
    ∧ (HolidayPeriod.mk 5 1).start_date + ((HolidayPeriod.mk 5 1).duration_in_days : Int) - 1 ≤ 5
    ∧ ((List.range 5).map (fun s => min 3 (5 - s))).sum = 12 := by
  decide

/-- Claim C2: every holiday period returned by the generator satisfies
`start_date + duration - 1 ≤ planning_end_date` (the generated periods
in fact satisfy the strictly stronger `start_date + duration ≤
planning_end_date`). -/
theorem generated_periods_respect_horizon_bound
    (max_holiday_period_length : Nat) (potential_start_dates : List CalDate)
    (planning_end : CalDate) (p : HolidayPeriod)
    (hp : p ∈ generate_all_possible_holiday_periods
      max_holiday_period_length potential_start_dates planning_end) :
    p.start_date + (p.duration_in_days : Int) - 1 ≤ planning_end := by
  unfold generate_all_possible_holiday_periods at hp
  obtain ⟨s, _, hmem⟩ := List.mem_flatMap.mp hp
  obtain ⟨dur, hd, rfl⟩ := List.mem_map.mp hmem
  have hpred : s + (dur : Int) ≤ planning_end := by
    simpa using List.mem_takeWhile_imp hd
  show s + (dur : Int) - 1 ≤ planning_end
  linarith

/-- Concrete instance of `generated_periods_respect_horizon_bound`. -/
theorem generated_periods_respect_horizon_bound_witness :
    HolidayPeriod.mk 1 1 ∈ generate_all_possible_holiday_periods 3 [1, 2] 5
    ∧ (HolidayPeriod.mk 1 1).start_date
        + ((HolidayPeriod.mk 1 1).duration_in_days : Int) - 1 ≤ 5 :=
  ⟨by decide,
   generated_periods_respect_horizon_bound 3 [1, 2] 5 (HolidayPeriod.mk 1 1) (by decide)⟩

/-- Claim C3: the period value is exactly 0 whenever the duration is
below `MIN_TIME_OFF_TO_GET_VALUE`, for every marginal-value lookup and
duration-based generator (so in particular regardless of preference
bonuses on the covered days); otherwise it is the sum of the per-day
marginal values over the period's days plus the duration-dependent
value. The dict lookup is embedded as a total function, so the claim's
domain condition on the period's days is implicit. -/
theorem calculate_value_of_period_gate_and_sum
    (p : HolidayPeriod) (marginal_value_lookup : CalDate → ℚ)
    (period_based_value_generator : Nat → ℚ) :
    (p.duration < LocalConfig.MIN_TIME_OFF_TO_GET_VALUE →
      calculate_value_of_period p marginal_value_lookup period_based_value_generator = 0)
    ∧ (LocalConfig.MIN_TIME_OFF_TO_GET_VALUE ≤ p.duration →
      calculate_value_of_period p marginal_value_lookup period_based_value_generator
        = (p.all_days.map marginal_value_lookup).sum
          + period_based_value_generator p.duration) := by
  refine ⟨fun h => ?_, fun h => ?_⟩
  · unfold calculate_value_of_period
    rw [if_pos h]
  · unfold calculate_value_of_period
    rw [if_neg (Nat.not_lt.mpr h)]

/-- Concrete instance of `calculate_value_of_period_gate_and_sum`: a
2-day period is gated to 0; a 4-day period gets day-sum plus duration
value. -/
theorem calculate_value_of_period_gate_and_sum_witness :
    calculate_value_of_period (HolidayPeriod.mk 739252 2)
      dict_marginal_value_of_day_off calculate_value_for_period_duration = 0
    ∧ calculate_value_of_period (HolidayPeriod.mk 739252 4)
      dict_marginal_value_of_day_off calculate_value_for_period_duration
        = ((HolidayPeriod.mk 739252 4).all_days.map dict_marginal_value_of_day_off).sum
          + calculate_value_for_period_duration (HolidayPeriod.mk 739252 4).duration :=
  ⟨(calculate_value_of_period_gate_and_sum _ _ _).1 (by decide),
   (calculate_value_of_period_gate_and_sum _ _ _).2 (by decide)⟩

/-- The duration-value step function written with the lets inlined. -/
lemma calculate_value_for_period_duration_eq (d : Nat) :
    calculate_value_for_period_duration d =
      if d < LocalConfig.PERIOD_LENGTH_GAIN_START then 0
      else if d > LocalConfig.PERIOD_LENGTH_GAIN_CUTOFF then
        ((LocalConfig.PERIOD_LENGTH_GAIN_CUTOFF : ℚ)
          - (LocalConfig.PERIOD_LENGTH_GAIN_START : ℚ) + 1) * 1
      else ((d : ℚ) - (LocalConfig.PERIOD_LENGTH_GAIN_START : ℚ) + 1) * 1 := rfl

/-- Claim C4: the duration component is 0 below `gain_start`, a linear
ramp `(duration - gain_start + 1) * unit_gain` on
`[gain_start, gain_cutoff]`, and the saturated value above the cutoff
(so the values at `gain_cutoff` and `gain_cutoff + 5` coincide), and
the function is monotonically non-decreasing. -/
theorem calculate_value_for_period_duration_spec (d : Nat) :
    (d < LocalConfig.PERIOD_LENGTH_GAIN_START →
      calculate_value_for_period_duration d = 0)
    ∧ (LocalConfig.PERIOD_LENGTH_GAIN_START ≤ d →
        d ≤ LocalConfig.PERIOD_LENGTH_GAIN_CUTOFF →
      calculate_value_for_period_duration d
        = ((d : ℚ) - (LocalConfig.PERIOD_LENGTH_GAIN_START : ℚ) + 1) * 1)
    ∧ (LocalConfig.PERIOD_LENGTH_GAIN_CUTOFF < d →
      calculate_value_for_period_duration d
        = ((LocalConfig.PERIOD_LENGTH_GAIN_CUTOFF : ℚ)
            - (LocalConfig.PERIOD_LENGTH_GAIN_START : ℚ) + 1) * 1)
    ∧ calculate_value_for_period_duration LocalConfig.PERIOD_LENGTH_GAIN_CUTOFF
        = calculate_value_for_period_duration (LocalConfig.PERIOD_LENGTH_GAIN_CUTOFF + 5)
    ∧ (∀ e : Nat, d ≤ e →
        calculate_value_for_period_duration d ≤ calculate_value_for_period_duration e) := by
  refine ⟨fun h => ?_, fun h1 h2 => ?_, fun h => ?_, ?_, fun e he => ?_⟩
  · rw [calculate_value_for_period_duration_eq, if_pos h]
  · rw [calculate_value_for_period_duration_eq, if_neg (Nat.not_lt.mpr h1),
      if_neg (Nat.not_lt.mpr h2)]
  · have h4 : ¬d < LocalConfig.PERIOD_LENGTH_GAIN_START := by
      unfold LocalConfig.PERIOD_LENGTH_GAIN_START
      unfold LocalConfig.PERIOD_LENGTH_GAIN_CUTOFF at h
      omega
    rw [calculate_value_for_period_duration_eq, if_neg h4, if_pos h]
  · rw [calculate_value_for_period_duration_eq, calculate_value_for_period_duration_eq]
    norm_num [LocalConfig.PERIOD_LENGTH_GAIN_START, LocalConfig.PERIOD_LENGTH_GAIN_CUTOFF]
  · rw [calculate_value_for_period_duration_eq, calculate_value_for_period_duration_eq]
    unfold LocalConfig.PERIOD_LENGTH_GAIN_START LocalConfig.PERIOD_LENGTH_GAIN_CUTOFF
    split_ifs
    all_goals push_neg at *
    all_goals (try qify at *)
    all_goals linarith

/-- Concrete instance of `calculate_value_for_period_duration_spec`:
duration 2 gets no duration value, and the function does not decrease
from 3 to 8. -/
theorem calculate_value_for_period_duration_spec_witness :
    calculate_value_for_period_duration 2 = 0
    ∧ calculate_value_for_period_duration 3 ≤ calculate_value_for_period_duration 8 :=
  ⟨(calculate_value_for_period_duration_spec 2).1 (by decide),
   (calculate_value_for_period_duration_spec 3).2.2.2.2 8 (by decide)⟩

/-- Claim C5: the cost lookup assigns 0 to weekend days (ISO weekday 6
or 7) and to supplied public holidays and 1 to every other horizon
day, and the period cost is the sum of the daily costs over the
period's days. -/
theorem cost_lookup_and_period_cost_spec
    (all_dates cost_free : List CalDate) (d : CalDate) (hd : d ∈ all_dates)
    (p : HolidayPeriod) (daily_cost_lookup : CalDate → Nat) :
    (d, cost_of_day cost_free d) ∈ generate_cost_lookup all_dates cost_free
    ∧ cost_of_day cost_free d
        = (if isoweekday d ∈ ([6, 7] : List Int) ∨ d ∈ cost_free then 0 else 1)
    ∧ calculate_cost_of_period p daily_cost_lookup
        = (p.all_days.map daily_cost_lookup).sum := by
  refine ⟨List.mem_map.mpr ⟨d, hd, rfl⟩, ?_, rfl⟩
  unfold cost_of_day is_weekend_day
  by_cases hw : isoweekday d ∈ ([6, 7] : List Int) <;>
    by_cases hm : d ∈ cost_free <;>
    simp [hw, hm]

/-- Concrete instance of `cost_lookup_and_period_cost_spec` at
2025-01-01 (a Wednesday public holiday in the toy data). -/
theorem cost_lookup_and_period_cost_spec_witness :
    (739252, cost_of_day [739252] 739252)
        ∈ generate_cost_lookup [739252, 739253] [739252]
    ∧ cost_of_day [739252] 739252
        = (if isoweekday 739252 ∈ ([6, 7] : List Int) ∨ (739252 : CalDate) ∈ [739252] then 0 else 1)
    ∧ calculate_cost_of_period (HolidayPeriod.mk 739252 2) (cost_of_day [739252])
        = ((HolidayPeriod.mk 739252 2).all_days.map (cost_of_day [739252])).sum :=
  cost_lookup_and_period_cost_spec [739252, 739253] [739252] 739252 (by decide)
    (HolidayPeriod.mk 739252 2) (cost_of_day [739252])

/-- Claim C6: each horizon date's marginal value is the baseline plus
the bonus applied exactly once when the ISO weekday is preferred OR
the date itself is preferred (the weekday rule matches first and
short-circuits), and never twice. -/
theorem marginal_value_bonus_applied_once
    (all_dates : List CalDate) (d : CalDate) (hd : d ∈ all_dates) :
    (d, marginal_value_of_day d) ∈ generate_marginal_value_lookup all_dates
    ∧ marginal_value_of_day d
        = LocalConfig.BASELINE_MARGINAL_VALUE
          + (if isoweekday d ∈ LocalConfig.PREFERRED_WEEKDAYS_OFF
                ∨ d ∈ LocalConfig.PREFERRED_DATES_OFF
             then LocalConfig.BONUS_MARGINAL_VALUE else 0) := by
  refine ⟨List.mem_map.mpr ⟨d, hd, rfl⟩, ?_⟩
  unfold marginal_value_of_day
  split_ifs <;> first | ring1 | tauto

/-- Concrete instance of `marginal_value_bonus_applied_once` at
2025-01-03, a Friday (preferred weekday 5) in the build horizon. -/
theorem marginal_value_bonus_applied_once_witness :
    (739254, marginal_value_of_day 739254)
        ∈ generate_marginal_value_lookup all_dates_in_period
    ∧ marginal_value_of_day 739254
        = LocalConfig.BASELINE_MARGINAL_VALUE
          + (if isoweekday 739254 ∈ LocalConfig.PREFERRED_WEEKDAYS_OFF
                ∨ (739254 : CalDate) ∈ LocalConfig.PREFERRED_DATES_OFF
             then LocalConfig.BONUS_MARGINAL_VALUE else 0) :=
  marginal_value_bonus_applied_once all_dates_in_period 739254 (by decide)

/-- Claim C9 (amended): the code performs no configuration validation
and raises no ConfigurationError: period generation with zero
max_duration silently yields an empty catalog, and constraint assembly
still builds the complete model (budget constraint plus one coverage
constraint per horizon date) from it. -/
theorem zero_max_duration_silently_yields_empty_catalog
    (potential_start_dates : List CalDate) (planning_end : CalDate)
    (all_dates : List CalDate) (daily_cost_lookup : CalDate → Nat) :
    generate_all_possible_holiday_periods 0 potential_start_dates planning_end = []
    ∧ (model_constraints
        (generate_all_possible_holiday_periods 0 potential_start_dates planning_end)
        all_dates daily_cost_lookup).length = 1 + all_dates.length := by
  have h : generate_all_possible_holiday_periods 0 potential_start_dates planning_end
      = [] := by
    unfold generate_all_possible_holiday_periods
    simp
  refine ⟨h, ?_⟩
  rw [h]
  unfold model_constraints dict_date_constraints
  simp
  omega

/-- Claim C9, counterexample to the claim as stated: with
max_duration = 0 and a nonempty horizon, no error is raised — the
catalog is silently empty and the full model (here 6 constraints) is
still assembled. -/
theorem no_configuration_error_raised_cex :
    generate_all_possible_holiday_periods 0 [1, 2, 3, 4, 5] 5 = []
    ∧ (model_constraints (generate_all_possible_holiday_periods 0 [1, 2, 3, 4, 5] 5)
        [1, 2, 3, 4, 5] (cost_of_day [])).length = 6 := by
  decide


/-- Claim C7: the assembled model is exactly one budget constraint —
sum over all catalog periods of (period cost × decision variable) ≤
the configured budget — followed by, for every horizon date, one
day-coverage constraint whose left-hand side sums, with coefficient 1,
the decision variables of exactly those catalog periods whose day
range includes that date, with right-hand side 1 (sense ≤, so a date
covered by zero selected periods is allowed). -/
theorem model_constraints_characterization
    (catalog : List HolidayPeriod) (all_dates : List CalDate)
    (daily_cost_lookup : CalDate → Nat) :
    model_constraints catalog all_dates daily_cost_lookup
      = { terms := catalog.map (fun p =>
            (p, (calculate_cost_of_period p daily_cost_lookup : ℚ))) ,
          rhs := (LocalConfig.HOLIDAY_BUDGET : ℚ) }
        :: all_dates.map (fun d =>
            { terms := (catalog.filter (fun p => decide (d ∈ p.all_days))).map
                (fun p => (p, (1 : ℚ))) ,
              rhs := 1 }) := by
  unfold model_constraints budget_constraint dict_date_constraints
  simp only [dict_date_variable_coverage_eq_filter, List.map_map]
  rfl

/-- Claim C8: a period is decoded as selected iff some entry pairs it
with a solved value strictly above 0.99; entries with a `None` solved
value are skipped (tolerated, never selected), and values at or below
0.99 do not select. -/
theorem selected_iff_value_above_threshold
    (dict_variables : List (HolidayPeriod × Option ℚ)) (p : HolidayPeriod) :
    (p ∈ get_selected_holiday_periods dict_variables
      ↔ ∃ v : ℚ, (p, some v) ∈ dict_variables ∧ v > 0.99)
    ∧ ∀ rest : List (HolidayPeriod × Option ℚ),
        get_selected_holiday_periods ((p, none) :: rest)
          = get_selected_holiday_periods rest := by
  refine ⟨?_, fun rest => rfl⟩
  induction dict_variables with
  | nil => simp [get_selected_holiday_periods]
  | cons hd tl ih =>
      obtain ⟨q, v⟩ := hd
      cases v with
      | none =>
          rw [show get_selected_holiday_periods ((q, none) :: tl)
              = get_selected_holiday_periods tl from rfl, ih]
          constructor
          · rintro ⟨v, hv, hgt⟩
            exact ⟨v, List.mem_cons_of_mem _ hv, hgt⟩
          · rintro ⟨v, hmem, hgt⟩
            rcases List.mem_cons.mp hmem with heq | htl
            · simp at heq
            · exact ⟨v, htl, hgt⟩
      | some x =>
          by_cases hx : x > 0.99
          · rw [show get_selected_holiday_periods ((q, some x) :: tl)
                = q :: get_selected_holiday_periods tl from by
              simp [get_selected_holiday_periods, if_pos hx]]
            rw [List.mem_cons]
            constructor
            · rintro (rfl | h)
              · exact ⟨x, List.mem_cons_self _ _, hx⟩
              · obtain ⟨v, hv, hgt⟩ := ih.mp h
                exact ⟨v, List.mem_cons_of_mem _ hv, hgt⟩
            · rintro ⟨v, hmem, hgt⟩
              rcases List.mem_cons.mp hmem with heq | htl
              · simp only [Prod.mk.injEq, Option.some.injEq] at heq
                exact Or.inl heq.1
              · exact Or.inr (ih.mpr ⟨v, htl, hgt⟩)
          · rw [show get_selected_holiday_periods ((q, some x) :: tl)
                = get_selected_holiday_periods tl from by
              simp [get_selected_holiday_periods, if_neg hx]]
            rw [ih]
            constructor
            · rintro ⟨v, hv, hgt⟩
              exact ⟨v, List.mem_cons_of_mem _ hv, hgt⟩
            · rintro ⟨v, hmem, hgt⟩
              rcases List.mem_cons.mp hmem with heq | htl
              · simp only [Prod.mk.injEq, Option.some.injEq] at heq
                obtain ⟨rfl, rfl⟩ := heq
                exact absurd hgt hx
              · exact ⟨v, htl, hgt⟩

/-- Concrete instance of `selected_iff_value_above_threshold`: a
synthetic assignment with values 0.995, 0.5 and `None` selects exactly
the first period. -/
theorem selected_iff_value_above_threshold_witness :
    HolidayPeriod.mk 739252 3 ∈ get_selected_holiday_periods
      [(HolidayPeriod.mk 739252 3, some 0.995),
       (HolidayPeriod.mk 739256 2, some 0.5),
       (HolidayPeriod.mk 739260 1, none)] :=
  (selected_iff_value_above_threshold _ _).1.mpr
    ⟨0.995, List.mem_cons_self _ _, by norm_num⟩

/-- Claim C10: a period of duration at least `MIN_TIME_OFF_TO_GET_VALUE`
whose days lie in the build horizon has total utility at least
duration × baseline, hence strictly positive: the short-duration gate
is the only way a period's utility is zero. -/
theorem period_value_positive
    (p : HolidayPeriod)
    (hdur : LocalConfig.MIN_TIME_OFF_TO_GET_VALUE ≤ p.duration)
    (_hdom : ∀ d ∈ p.all_days, d ∈ all_dates_in_period) :
    (p.duration : ℚ) * LocalConfig.BASELINE_MARGINAL_VALUE
      ≤ calculate_value_of_period p dict_marginal_value_of_day_off
          calculate_value_for_period_duration
    ∧ 0 < calculate_value_of_period p dict_marginal_value_of_day_off
          calculate_value_for_period_duration := by
  have hval : calculate_value_of_period p dict_marginal_value_of_day_off
        calculate_value_for_period_duration
      = (p.all_days.map dict_marginal_value_of_day_off).sum
          + calculate_value_for_period_duration p.duration := by
    unfold calculate_value_of_period
    rw [if_neg (Nat.not_lt.mpr hdur)]
  have hsum : ((p.all_days.map dict_marginal_value_of_day_off).length : ℚ)
      ≤ (p.all_days.map dict_marginal_value_of_day_off).sum := by
    apply length_le_sum_of_one_le
    intro x hx
    obtain ⟨d, _, rfl⟩ := List.mem_map.mp hx
    exact one_le_marginal_value_of_day d
  have hlen : (p.all_days.map dict_marginal_value_of_day_off).length = p.duration := by
    rw [List.length_map]
    unfold HolidayPeriod.all_days HolidayPeriod.duration
    rw [List.length_map, List.length_range]
  rw [hlen] at hsum
  have hstep := calculate_value_for_period_duration_nonneg p.duration
  have h3 : (3 : ℚ) ≤ (p.duration : ℚ) := by
    have : (3 : Nat) ≤ p.duration := hdur
    exact_mod_cast this
  constructor
  · rw [hval]
    unfold LocalConfig.BASELINE_MARGINAL_VALUE
    rw [mul_one]
    linarith
  · rw [hval]
    linarith

/-- Concrete instance of `period_value_positive`: the 3-day period
starting 2025-01-01 lies in the build horizon and has strictly
positive utility. -/
theorem period_value_positive_witness :
    LocalConfig.MIN_TIME_OFF_TO_GET_VALUE ≤ (HolidayPeriod.mk 739252 3).duration
    ∧ 0 < calculate_value_of_period (HolidayPeriod.mk 739252 3)
        dict_marginal_value_of_day_off calculate_value_for_period_duration :=
  ⟨by decide,
   (period_value_positive (HolidayPeriod.mk 739252 3) (by decide) (by decide)).2⟩
